import Mathlib

/-!
Verification of the export-run processing pipeline of the obe-app repository
(apps/exports: tasks.py, processors.py, models.py, tiles.py, views/api_views.py)
against its natural-language specification.  The Python code is shallowly
embedded: dict payloads become structures of optional fields (a `none` field
models an absent key), raised exceptions become the `.error` case of `Except`,
and every external effect (ORM, providers, subprocesses, the file system) is an
oracle supplied through an `Env` record.
-/

namespace ObeApp

/-- Decidable equality for Except values, so that concrete runs of the
embedded code can be checked by `decide`. -/
instance {ε α : Type} [DecidableEq ε] [DecidableEq α] :
    DecidableEq (Except ε α) := fun x y =>
  match x, y with
  | .ok a, .ok b =>
    if h : a = b then .isTrue (by rw [h]) else .isFalse (by simp [h])
  | .error a, .error b =>
    if h : a = b then .isTrue (by rw [h]) else .isFalse (by simp [h])
  | .ok _, .error _ => .isFalse (by simp)
  | .error _, .ok _ => .isFalse (by simp)

/-- Python truthiness of an optional string: both `None` and `""` are falsy. -/
def strTruthy : Option String → Bool
  | none => false
  | some s => s != ""

/-- Python dict assignment on an insertion-ordered association list:
replace the value in place if the key exists, else append. -/
def setKey {α : Type} : List (String × α) → String → α → List (String × α)
  | [], k, v => [(k, v)]
  | (k', v') :: rest, k, v =>
    if k' = k then (k, v) :: rest else (k', v') :: setKey rest k v

/-- Python `dict.get`: the value stored at a key, if present. -/
def getKey {α : Type} : List (String × α) → String → Option α
  | [], _ => none
  | (k', v') :: rest, k => if k' = k then some v' else getKey rest k

/- ### apps/exports/processors.py: module-level names (claim C1) -/

/-- Top-level names bound in apps/exports/processors.py: the imports
(`mapping` is bound only when the optional import succeeds), the logger, the
abstract base class, the four per-source processor classes, the registry and
its accessor.  No name `BuildingProcessor` is bound. -/
def processorsModuleNames : List String :=
  ["tempfile", "logging", "ABC", "abstractmethod", "Path", "Dict", "Any",
   "Optional", "Polygon", "obe", "gpd", "mapping", "logger",
   "BaseProcessor", "GoogleProcessor", "MicrosoftProcessor", "OSMProcessor",
   "OvertureProcessor", "PROCESSORS", "get_processor"]

/-- Names that apps/exports/tasks.py requests in
`from .processors import BuildingProcessor` (tasks.py line 17). -/
def tasksImportsFromProcessors : List String := ["BuildingProcessor"]

/-- A Python `from M import a, b, ...` succeeds only when every requested name
is bound in module M; otherwise the importing module fails to load. -/
def fromImportOk (moduleNames requested : List String) : Bool :=
  requested.all (fun n => moduleNames.contains n)

/-- Keys of the PROCESSORS registry (processors.py lines 251-256). -/
def PROCESSORS_keys : List String := ["google", "microsoft", "osm", "overture"]

/- ### apps/exports/models.py: ExportRun fields (claim C6) -/

/-- Field names declared on the ExportRun model (models.py lines 142-169). -/
def exportRunFieldNames : List String :=
  ["id", "export", "status", "results", "output_file", "started_at",
   "completed_at", "error_message", "task_id", "created_at", "updated_at"]

/-- The run attribute each generate_pmtiles_* function stores the produced
artifact to, `export_run.tiles_file.save(...)` (tiles.py lines 47, 87, 141). -/
def tilesArtifactAttribute : String := "tiles_file"

/- ### apps/exports/models.py: source-config validation (claim C7) -/

/-- One entry of SOURCE_CONFIG_SCHEMA: its recognized property names and its
`additionalProperties` flag. -/
structure SourceSchema where
  properties : List String
  additionalProperties : Bool
deriving DecidableEq

/-- SOURCE_CONFIG_SCHEMA (models.py lines 33-76), restricted to the recognized
option names and the additionalProperties flag of each source. -/
def SOURCE_CONFIG_SCHEMA : List (String × SourceSchema) :=
  [("google", ⟨["confidence_threshold"], false⟩),
   ("microsoft", ⟨["region"], false⟩),
   ("osm", ⟨["building_types"], false⟩),
   ("overture", ⟨["include_height", "min_area"], false⟩)]

/-- A Python value passed as `config`: `None`, a dict (kept as its key list),
or some non-dict truthy value. -/
inductive PyConfig
  | pyNone
  | pyDict (keys : List String)
  | pyOther
deriving DecidableEq

/-- Python falsiness of a config value: `None` and the empty dict are falsy;
`pyOther` stands for a truthy non-dict value. -/
def PyConfig.falsy : PyConfig → Bool
  | .pyNone => true
  | .pyDict keys => keys.isEmpty
  | .pyOther => false

/-- validate_source_config (models.py lines 79-90); a raised ValidationError is
the `.error` case.  Note the body never consults the schema's properties or
additionalProperties. -/
def validate_source_config (source : String) (config : PyConfig) :
    Except String Bool :=
  if config.falsy then .ok true
  else
    match getKey SOURCE_CONFIG_SCHEMA source with
    | none => .error ("Unknown source: " ++ source)
    | some _schema =>
      match config with
      | .pyDict _ => .ok true
      | _ => .error "Source config must be a dictionary"

/- ### apps/exports/tasks.py: the process_export pipeline -/

/-- A GeoDataFrame, abstracted to its row count: the pipeline only tests
emptiness, appends frames, and otherwise passes frames through to oracles. -/
structure Gdf where
  rows : Nat
deriving DecidableEq

/-- GeoDataFrame emptiness (`gdf.empty`). -/
def Gdf.isEmpty (g : Gdf) : Bool := g.rows == 0

/-- The dict returned by processor.extract_buildings, restricted to the keys
process_export reads; an absent key is `none`. -/
structure ExtractResult where
  error : Option String := none
  building_count : Option Nat := none
  gdf : Option Gdf := none
deriving DecidableEq

/-- The dict returned by processor.save_gdf_to_format, restricted to the keys
process_export and _package_files read. -/
structure FileInfo where
  error : Option String := none
  file_path : Option String := none
deriving DecidableEq

/-- A per-source entry of source_results: on the error path the whole extract
dict is stored (the `gdf` key included, since the pop happens later); on the
success path the dict minus `gdf`, plus the keys the loop adds afterwards. -/
structure SourcePayload where
  error : Option String := none
  building_count : Option Nat := none
  gdf : Option Gdf := none
  geojson_path : Option String := none
  has_data : Option Bool := none
deriving DecidableEq

/-- The dict returned by PopulationEstimator.estimate_population, restricted
to the key the pipeline reads back. -/
structure PopData where
  population_estimate : Option Nat := none
deriving DecidableEq

/-- One entry of the source-completeness analysis.  Python's
`round(x * 1000, 3)` float rounding is modelled by the exact rational. -/
structure SourceCompleteness where
  building_count : Nat
  buildings_per_capita_x1000 : ℚ
  estimated_coverage : String
deriving DecidableEq

/-- The population_stats sub-dict of the results payload. -/
structure PopulationStats where
  source_completeness : List (String × SourceCompleteness)
deriving DecidableEq

/-- The ExportRun.results JSON payload, restricted to the keys the pipeline
writes and the model properties read; an absent key is `none`. -/
structure Results where
  status : Option String := none
  message : Option String := none
  sources : Option (List (String × SourcePayload)) := none
  output_formats : Option (List String) := none
  files : Option (List (String × List (String × FileInfo))) := none
  population : Option PopData := none
  population_stats : Option PopulationStats := none
  tiles_generated : Option Bool := none
  tiles_available : Option Bool := none
  tiles_error : Option String := none
  building_count : Option Nat := none
deriving DecidableEq

/-- The ExportRun row as the task reads and writes it, with exactly the
fields models.py declares (timestamps tracked as set / not set).  There is
no tiles-artifact field: every `export_run.tiles_file` access that tiles.py
and _package_files perform raises AttributeError (see exportRunFieldNames
and claim C6). -/
structure RunState where
  id : String := ""
  status : String := "pending"
  results : Results := {}
  output_file : Option String := none
  started_at : Bool := false
  completed_at : Bool := false
  error_message : String := ""
  created_at_str : String := ""
deriving DecidableEq

/-- The owning Export row, restricted to the fields process_export reads.
`source` and `output_format` are already lists (ArrayField); the opaque
source_config blob is absorbed into the extraction oracles. -/
structure ExportCfg where
  name : String := "export"
  sources : List String := []
  output_formats : List String := []
  user_email : String := ""
  user_email_notifications : Bool := false
deriving DecidableEq

/-- Outcome of one tippecanoe subprocess invocation (tiles.py). -/
structure TipOutcome where
  returncode : Int := 0
  stderr : String := ""
  outputExists : Bool := true
deriving DecidableEq

/-- Oracles for the external effects process_export performs.  An
`Except`-valued oracle models the call either returning (`.ok`) or raising
(`.error`, carrying the exception text). -/
structure Env where
  runExists : Bool := true
  extract : String → Except String ExtractResult
  extractForTiles : String → Except String ExtractResult
  save_gdf_to_format : Gdf → String → String → Except String FileInfo
  estimate_population : Except String (Option PopData)
  tippecanoeAvailable : Bool := false
  tippecanoe : List String → TipOutcome
  tippecanoeGdf : Gdf → TipOutcome
  tilesPathExists : String → Bool
  packagingOk : Except String Unit
  savedFileSize : Nat := 0

/-- The dict process_export returns. -/
structure TaskReturn where
  status : String
  error : Option String := none
  building_count : Option Nat := none
  file_size : Option Nat := none
deriving DecidableEq

/-- Final run state, returned dict, and whether a completion email was
scheduled. -/
structure ProcOutcome where
  run : RunState
  ret : TaskReturn
  email_scheduled : Bool := false
deriving DecidableEq

/-- Accumulator of the main per-source loop (tasks.py lines 48-50). -/
structure LoopAcc where
  source_results : List (String × SourcePayload) := []
  all_files : List (String × List (String × FileInfo)) := []
  total_building_count : Nat := 0
deriving DecidableEq

/-- The inner loop over output formats for one source (tasks.py lines 75-88):
the pseudo-format "tiles" is skipped, conversion errors are dropped, and the
geojson conversion's path is remembered. -/
def formatLoop (env : Env) (gdf : Gdf) (source : String) :
    List String → List (String × FileInfo) → Option String →
    Except String (List (String × FileInfo) × Option String)
  | [], source_files, geojson_file_path => .ok (source_files, geojson_file_path)
  | fmt :: rest, source_files, geojson_file_path =>
    if fmt = "tiles" then formatLoop env gdf source rest source_files geojson_file_path
    else
      match env.save_gdf_to_format gdf fmt (source ++ "_buildings") with
      | .error e => .error e
      | .ok file_info =>
        if strTruthy file_info.error then
          formatLoop env gdf source rest source_files geojson_file_path
        else
          formatLoop env gdf source rest (setKey source_files fmt file_info)
            (if fmt = "geojson" then file_info.file_path else geojson_file_path)

/-- The main loop over sources (tasks.py lines 52-95).  A returned error dict
is recorded and skipped (`continue`); otherwise the count is accumulated, the
gdf is popped, and for a non-empty gdf every requested format is converted. -/
def sourceLoop (env : Env) (output_formats : List String) :
    List String → LoopAcc → Except String LoopAcc
  | [], acc => .ok acc
  | source :: rest, acc =>
    match env.extract source with
    | .error e => .error e
    | .ok result =>
      if strTruthy result.error then
        let errPayload : SourcePayload :=
          { error := result.error, building_count := result.building_count,
            gdf := result.gdf }
        sourceLoop env output_formats rest
          { acc with source_results := setKey acc.source_results source errPayload }
      else
        let total := acc.total_building_count + result.building_count.getD 0
        let payload : SourcePayload :=
          { error := result.error, building_count := result.building_count }
        let source_results := setKey acc.source_results source payload
        match result.gdf with
        | none =>
          sourceLoop env output_formats rest
            { source_results := source_results, all_files := acc.all_files,
              total_building_count := total }
        | some gdf =>
          if gdf.isEmpty then
            sourceLoop env output_formats rest
              { source_results := source_results, all_files := acc.all_files,
                total_building_count := total }
          else
            match formatLoop env gdf source output_formats [] none with
            | .error e => .error e
            | .ok (source_files, geojson_file_path) =>
              let source_results :=
                if strTruthy geojson_file_path then
                  setKey source_results source
                    { payload with geojson_path := geojson_file_path, has_data := some true }
                else
                  setKey source_results source { payload with has_data := some true }
              sourceLoop env output_formats rest
                { source_results := source_results,
                  all_files := setKey acc.all_files source source_files,
                  total_building_count := total }

/-- _estimate_coverage_level (tasks.py lines 377-387). -/
def estimate_coverage_level (buildings_per_capita : ℚ) : String :=
  if buildings_per_capita < 1/10 then "very_low"
  else if buildings_per_capita < 2/10 then "low"
  else if buildings_per_capita < 4/10 then "moderate"
  else if buildings_per_capita < 6/10 then "high"
  else "excellent"

/-- _analyze_source_completeness (tasks.py lines 360-374), with the float
arithmetic carried out exactly over the rationals. -/
def analyze_source_completeness (source_results : List (String × SourcePayload))
    (population : Nat) : List (String × SourceCompleteness) :=
  source_results.foldl
    (fun acc p =>
      let bc : Nat := p.2.building_count.getD 0
      if bc > 0 ∧ population > 0 then
        let bpc : ℚ := (bc : ℚ) / (population : ℚ)
        setKey acc p.1
          { building_count := bc, buildings_per_capita_x1000 := bpc * 1000,
            estimated_coverage := estimate_coverage_level bpc }
      else acc)
    []

/-- _classify_building_density (tasks.py lines 344-357), with the float
division carried out exactly over the rationals. -/
def classify_building_density (population building_count : Nat) : String :=
  if population = 0 ∨ building_count = 0 then "unknown"
  else
    let ppb : ℚ := (population : ℚ) / (building_count : ℚ)
    if ppb < 2 then "low_density"
    else if ppb < 5 then "medium_density"
    else if ppb < 10 then "high_density"
    else "very_high_density"

/-- The exception raised by any `export_run.tiles_file` read or write:
ExportRun declares no such field (models.py lines 142-169, claim C6). -/
def tilesFileAttributeError : String :=
  "AttributeError: ExportRun object has no attribute tiles_file"

/-- generate_pmtiles_from_geojson (tiles.py lines 53-90): raises on a
non-zero tippecanoe exit or a missing output file; on tippecanoe success the
save step `export_run.tiles_file.save(...)` (line 87) raises AttributeError
because ExportRun declares no tiles_file field, so the call never returns
normally.  The media-directory prefix of the output path is elided. -/
def generate_pmtiles_from_geojson (env : Env) (geojson_path : String)
    (run : RunState) : Except String RunState :=
  let out := env.tippecanoe [geojson_path]
  if out.returncode != 0 then .error ("Tippecanoe failed: " ++ out.stderr)
  else if !out.outputExists then
    .error ("Tippecanoe succeeded but output file " ++ run.id ++
      ".pmtiles was not created")
  else .error tilesFileAttributeError

/-- generate_pmtiles_from_multiple_geojson (tiles.py lines 11-50): identical,
with all input paths passed to one tippecanoe invocation; the save at line
47 raises AttributeError the same way. -/
def generate_pmtiles_from_multiple_geojson (env : Env)
    (geojson_paths : List String) (run : RunState) : Except String RunState :=
  let out := env.tippecanoe geojson_paths
  if out.returncode != 0 then .error ("Tippecanoe failed: " ++ out.stderr)
  else if !out.outputExists then
    .error ("Tippecanoe succeeded but output file " ++ run.id ++
      ".pmtiles was not created")
  else .error tilesFileAttributeError

/-- generate_pmtiles_from_gdf (tiles.py lines 93-148): rejects an empty
frame, tiles a temporary line-delimited serialization of it; the save at
line 141 raises AttributeError the same way. -/
def generate_pmtiles_from_gdf (env : Env) (gdf : Gdf) (run : RunState) :
    Except String RunState :=
  if gdf.isEmpty then .error "GeoDataFrame is None or empty"
  else
    let out := env.tippecanoeGdf gdf
    if out.returncode != 0 then .error ("Tippecanoe failed: " ++ out.stderr)
    else if !out.outputExists then
      .error ("Tippecanoe succeeded but output file " ++ run.id ++
        ".pmtiles was not created")
    else .error tilesFileAttributeError

/-- The scan inside the tiles block (tasks.py lines 136-153): collect the
geojson paths kept by the main loop and, for sources with data but no kept
geojson file, re-extract their frames. -/
def tilesCollect (env : Env) (source_results : List (String × SourcePayload)) :
    List String → List String → List Gdf →
    Except String (List String × List Gdf)
  | [], paths, gdfs => .ok (paths, gdfs)
  | source :: rest, paths, gdfs =>
    let result := (getKey source_results source).getD ({} : SourcePayload)
    if strTruthy result.geojson_path then
      tilesCollect env source_results rest (paths ++ [result.geojson_path.getD ""]) gdfs
    else if result.has_data.getD false then
      match env.extractForTiles source with
      | .error e => .error e
      | .ok gdf_result =>
        if !(strTruthy gdf_result.error) then
          match gdf_result.gdf with
          | some g => tilesCollect env source_results rest paths (gdfs ++ [g])
          | none => tilesCollect env source_results rest paths gdfs
        else tilesCollect env source_results rest paths gdfs
    else tilesCollect env source_results rest paths gdfs

/-- The tile-generation attempt (tasks.py lines 135-163): one kept geojson
path tiles directly, several are merged, and otherwise any re-extracted
frames are appended into one frame and tiled. -/
def tilesAttempt (env : Env) (cfg : ExportCfg) (run : RunState)
    (source_results : List (String × SourcePayload)) : Except String RunState :=
  match tilesCollect env source_results cfg.sources [] [] with
  | .error e => .error e
  | .ok (paths, gdfs) =>
    if paths.length = 1 then
      generate_pmtiles_from_geojson env (paths.headD "") run
    else if paths.length > 1 then
      generate_pmtiles_from_multiple_geojson env paths run
    else
      match gdfs with
      | [] => .ok run
      | g :: rest =>
        generate_pmtiles_from_gdf env
          (rest.foldl (fun a b => ⟨a.rows + b.rows⟩) g) run

/-- The tiles block with its local try/except (tasks.py lines 134-170): on
success the results gain tiles_generated / tiles_available, any exception is
absorbed into a tiles_error annotation. -/
def tilesStage (env : Env) (cfg : ExportCfg) (run : RunState)
    (source_results : List (String × SourcePayload)) (fr : Results) :
    RunState × Results :=
  match tilesAttempt env cfg run source_results with
  | .ok run' =>
    (run', { fr with tiles_generated := some true, tiles_available := some true })
  | .error e => (run, { fr with tiles_error := some e })

/-- Python pathlib Path(p).suffix: the final extension of the last path
component; empty when the last dot is leading, trailing or absent. -/
def pathSuffix (p : String) : String :=
  let name := (p.splitOn "/").getLastD ""
  let parts := name.splitOn "."
  match parts with
  | [] => ""
  | [_] => ""
  | _ =>
    let last := parts.getLastD ""
    let before := String.intercalate "." parts.dropLast
    if before = "" ∨ last = "" then "" else "." ++ last

/-- Archive members contributed by one source's converted files
(tasks.py lines 242-245); a missing file_path key raises. -/
def packageSourceMembers (source : String) :
    List (String × FileInfo) → Except String (List String)
  | [] => .ok []
  | (format_name, file_info) :: rest =>
    match file_info.file_path with
    | none => .error "KeyError: file_path"
    | some p =>
      match packageSourceMembers source rest with
      | .error e => .error e
      | .ok ms => .ok ((source ++ "_" ++ format_name ++ pathSuffix p) :: ms)

/-- Archive members contributed by all converted files (tasks.py lines
241-245). -/
def packageConverted :
    List (String × List (String × FileInfo)) → Except String (List String)
  | [] => .ok []
  | (source, source_files) :: rest =>
    match packageSourceMembers source source_files with
    | .error e => .error e
    | .ok ms =>
      match packageConverted rest with
      | .error e => .error e
      | .ok ms' => .ok (ms ++ ms')

/-- _package_files (tasks.py lines 234-261).  The converted members are
written first (lines 241-245; a missing file_path key raises); then line
247 evaluates `export_run.tiles_file` on the always-truthy run passed by
process_export.  That read raises AttributeError - ExportRun declares no
tiles_file field (claim C6) - and it sits outside the inner try that starts
at line 248, so the exception escapes and the function never returns the
archive path; the tiles-member addition and the final return are
unreachable. -/
def package_files (all_files : List (String × List (String × FileInfo)))
    (export_name : String) (run : RunState) (env : Env) :
    Except String (String × List String) :=
  match packageConverted all_files with
  | .error e => .error e
  | .ok _ms => .error tilesFileAttributeError

/-- The packaging step of process_export (tasks.py lines 172-195): skipped
when no source produced files; otherwise the archive is built, read back and
saved as the run's output_file (env.packagingOk models the file-system part),
and the intermediates are unlinked. -/
def packageStage (env : Env) (cfg : ExportCfg) (run : RunState)
    (all_files : List (String × List (String × FileInfo))) :
    Except String RunState :=
  if all_files.isEmpty then .ok run
  else
    match package_files all_files cfg.name run env with
    | .error e => .error e
    | .ok (zipName, _members) =>
      match env.packagingOk with
      | .error e => .error e
      | .ok _ => .ok { run with output_file := some zipName }

/-- The tail of the process_export body once the final results dict is
assembled (tasks.py lines 134-213): the guarded tiles stage, packaging, and
the completed finalization with the optional completion email. -/
def finalizeStage (env : Env) (cfg : ExportCfg) (acc : LoopAcc)
    (fr : Results) (run : RunState) : Except (RunState × String) ProcOutcome :=
  let rfr :=
    if env.tippecanoeAvailable ∧ acc.total_building_count > 0 then
      tilesStage env cfg run acc.source_results fr
    else (run, fr)
  match packageStage env cfg rfr.1 acc.all_files with
  | .error e => .error (rfr.1, e)
  | .ok run' =>
    let runDone : RunState :=
      { run' with
        results := rfr.2, status := "completed",
        completed_at := true }
    let retDone : TaskReturn :=
      { status := "completed",
        building_count := some acc.total_building_count,
        file_size := some env.savedFileSize }
    .ok { run := runDone, ret := retDone,
          email_scheduled :=
            cfg.user_email_notifications && (cfg.user_email != "") }

/-- The final-results dict as assembled before the tiles stage (tasks.py
lines 113-132): the base keys, plus the population keys when population data
came back. -/
def frOf (cfg : ExportCfg) (acc : LoopAcc) (popOpt : Option PopData) :
    Results :=
  let fr : Results :=
    { status := some "completed", sources := some acc.source_results,
      output_formats := some cfg.output_formats, files := some acc.all_files }
  match popOpt with
  | some pop =>
    let stats : PopulationStats :=
      ⟨analyze_source_completeness acc.source_results
        (pop.population_estimate.getD 0)⟩
    { fr with population := some pop, population_stats := some stats }
  | none => fr

/-- The body of process_export after the run has entered processing
(tasks.py lines 36-213).  A `.error` outcome is an uncaught exception; it
carries the run state as already persisted at the raise point. -/
def bodyAfterProcessing (env : Env) (cfg : ExportCfg) (run : RunState) :
    Except (RunState × String) ProcOutcome :=
  match sourceLoop env cfg.output_formats cfg.sources {} with
  | .error e => .error (run, e)
  | .ok acc =>
    if acc.total_building_count = 0 then
      let zeroResults : Results :=
        { status := some "completed",
          message := some "No buildings found from any source",
          sources := some acc.source_results }
      let runZero : RunState :=
        { run with
          results := zeroResults, status := "completed",
          completed_at := true }
      .ok { run := runZero, ret := { status := "completed" } }
    else
      match env.estimate_population with
      | .error e => .error (run, e)
      | .ok popOpt => finalizeStage env cfg acc (frOf cfg acc popOpt) run

/-- tasks.process_export (tasks.py lines 28-231): fetch the run, enter
processing, run the body, and absorb any uncaught exception into the failed
state with the captured error text and a completion timestamp. -/
def process_export (env : Env) (cfg : ExportCfg) (run0 : RunState) :
    ProcOutcome :=
  if !env.runExists then
    { run := run0,
      ret := { status := "failed", error := some "Export run not found" } }
  else
    match bodyAfterProcessing env cfg
        { run0 with status := "processing", started_at := true } with
    | .ok out => out
    | .error (runF, e) =>
      let runFailed : RunState :=
        { runF with
          status := "failed", error_message := e,
          completed_at := true }
      { run := runFailed, ret := { status := "failed", error := some e } }

/-- ExportRun.building_count (models.py lines 180-182):
`self.results.get("building_count", 0)`. -/
def RunState.building_count (r : RunState) : Nat :=
  r.results.building_count.getD 0

/-- The building_count field of the run-statistics endpoint's response
(api_views.py line 378): it is exactly the model property. -/
def statsBuildingCount (r : RunState) : Nat := r.building_count

/- ### apps/exports/views/api_views.py: start / re-run endpoints (claim C9) -/

/-- Export.is_processing (models.py lines 137-139): true when some run of the
export is pending, queued or processing.  The argument is the status list of
all the export's runs. -/
def export_is_processing (run_statuses : List String) : Bool :=
  run_statuses.any (fun st => st == "pending" || st == "queued" || st == "processing")

/-- Outcome of a start / re-run HTTP request. -/
structure StartOutcome where
  http_status : Nat
  scheduled : Bool
deriving DecidableEq

/-- StartExportRunView.post (api_views.py lines 184-207): 404 when the run is
not found, 400 (nothing scheduled) when the owning export has a run in flight,
else the run is queued and process_export is scheduled. -/
def start_export_run (runFound : Bool) (run_statuses : List String) :
    StartOutcome :=
  if !runFound then { http_status := 404, scheduled := false }
  else if export_is_processing run_statuses then
    { http_status := 400, scheduled := false }
  else { http_status := 200, scheduled := true }

/-- rerun_export (api_views.py lines 603-613): 404 when the export is missing;
otherwise it unconditionally creates a new queued run and schedules
process_export, with no check of the export's in-flight runs. -/
def rerun_export (exportFound : Bool) (run_statuses : List String) :
    StartOutcome × List String :=
  if !exportFound then ({ http_status := 404, scheduled := false }, run_statuses)
  else ({ http_status := 201, scheduled := true }, run_statuses ++ ["queued"])

/- ### Proof support: the loops of process_export specialized to oracles that
never raise.  These are the same source loops with the `.ok` constructors
stripped; they are used to characterize sourceLoop in the theorems below. -/

/-- formatLoop (tasks.py lines 75-88) specialized to a save oracle `fi` that
never raises. -/
def formatLoopNoExn (fi : Gdf → String → String → FileInfo) (g : Gdf)
    (source : String) :
    List String → List (String × FileInfo) → Option String →
    List (String × FileInfo) × Option String
  | [], source_files, geojson_file_path => (source_files, geojson_file_path)
  | fmt :: rest, source_files, geojson_file_path =>
    if fmt = "tiles" then
      formatLoopNoExn fi g source rest source_files geojson_file_path
    else
      let file_info := fi g fmt (source ++ "_buildings")
      if strTruthy file_info.error then
        formatLoopNoExn fi g source rest source_files geojson_file_path
      else
        formatLoopNoExn fi g source rest (setKey source_files fmt file_info)
          (if fmt = "geojson" then file_info.file_path else geojson_file_path)

/-- One iteration of the main source loop (tasks.py lines 52-95) specialized
to extraction oracle `f` and save oracle `fi` that never raise. -/
def sourceStepNoExn (f : String → ExtractResult)
    (fi : Gdf → String → String → FileInfo) (fmts : List String)
    (acc : LoopAcc) (source : String) : LoopAcc :=
  let result := f source
  if strTruthy result.error then
    let errPayload : SourcePayload :=
      { error := result.error, building_count := result.building_count,
        gdf := result.gdf }
    { acc with source_results := setKey acc.source_results source errPayload }
  else
    let total := acc.total_building_count + result.building_count.getD 0
    let payload : SourcePayload :=
      { error := result.error, building_count := result.building_count }
    let source_results := setKey acc.source_results source payload
    match result.gdf with
    | none =>
      { source_results := source_results, all_files := acc.all_files,
        total_building_count := total }
    | some gdf =>
      if gdf.isEmpty then
        { source_results := source_results, all_files := acc.all_files,
          total_building_count := total }
      else
        let fl := formatLoopNoExn fi gdf source fmts [] none
        let source_results :=
          if strTruthy fl.2 then
            setKey source_results source
              { payload with geojson_path := fl.2, has_data := some true }
          else
            setKey source_results source { payload with has_data := some true }
        { source_results := source_results,
          all_files := setKey acc.all_files source fl.1,
          total_building_count := total }

/-- The main source loop specialized to oracles that never raise. -/
def sourceLoopNoExn (f : String → ExtractResult)
    (fi : Gdf → String → String → FileInfo) (fmts : List String) :
    List String → LoopAcc → LoopAcc
  | [], acc => acc
  | s :: rest, acc =>
    sourceLoopNoExn f fi fmts rest (sourceStepNoExn f fi fmts acc s)

/-- The per-source payload recorded by one loop iteration with non-raising
oracles. -/
def payloadNoExn (f : String → ExtractResult)
    (fi : Gdf → String → String → FileInfo) (fmts : List String)
    (s : String) : SourcePayload :=
  let r := f s
  if strTruthy r.error then
    { error := r.error, building_count := r.building_count, gdf := r.gdf }
  else
    let payload : SourcePayload :=
      { error := r.error, building_count := r.building_count }
    match r.gdf with
    | none => payload
    | some g =>
      if g.isEmpty then payload
      else
        let fl := formatLoopNoExn fi g s fmts [] none
        if strTruthy fl.2 then
          { payload with geojson_path := fl.2, has_data := some true }
        else { payload with has_data := some true }

/-- A source's contribution to total_building_count: zero when the extract
dict carries an error (the loop skips it before accumulating), else its
building_count. -/
def contribution (r : ExtractResult) : Nat :=
  if strTruthy r.error then 0 else r.building_count.getD 0

/- ### Concrete environments used by the witnesses -/

/-- A do-nothing oracle environment used as the base of concrete witnesses. -/
def wEnvBase : Env :=
  { runExists := true,
    extract := fun _ => .ok {},
    extractForTiles := fun _ => .ok {},
    save_gdf_to_format := fun _ _ _ => .ok {},
    estimate_population := .ok none,
    tippecanoeAvailable := false,
    tippecanoe := fun _ => {},
    tippecanoeGdf := fun _ => {},
    tilesPathExists := fun _ => false,
    packagingOk := .ok (),
    savedFileSize := 0 }

/-- A two-source export configuration used by the witnesses. -/
def wCfg : ExportCfg :=
  { name := "demo", sources := ["google", "osm"],
    output_formats := ["geojson"] }

/-- An extraction oracle whose google source errors and whose osm source
returns five buildings. -/
def wExtract : String → ExtractResult := fun s =>
  if s = "google" then { error := some "provider down" }
  else { error := none, building_count := some 5, gdf := some ⟨5⟩ }

/-- A save oracle that always succeeds and reports a path. -/
def wSave : Gdf → String → String → FileInfo := fun _ _ _ =>
  { error := none, file_path := some "buildings.geojson" }

/-- The path function of wSave. -/
def wSavePath : Gdf → String → String → String := fun _ _ _ =>
  "buildings.geojson"

/-- Witness environment where extraction returns wExtract and saving returns
wSave. -/
def wEnvLoop : Env :=
  { wEnvBase with
    extract := fun s => .ok (wExtract s),
    save_gdf_to_format := fun g fm b => .ok (wSave g fm b) }

/-- Witness environment where the osm extraction raises. -/
def wEnvRaise : Env :=
  { wEnvBase with
    extract := fun _ => .error "disk full" }

/-- An extraction oracle returning zero buildings for every source. -/
def wExtractZero : String → ExtractResult := fun _ =>
  { error := none, building_count := some 0 }

/-- Witness environment where every source yields zero buildings. -/
def wEnvZero : Env :=
  { wEnvBase with
    extract := fun s => .ok (wExtractZero s) }

/-- Witness environment where extraction and saving succeed but every
tippecanoe invocation exits with code 1. -/
def wEnvTipFail : Env :=
  { wEnvLoop with
    tippecanoeAvailable := true,
    tippecanoe := fun _ => { returncode := 1, stderr := "boom", outputExists := false } }

/- ### Association-list lemmas -/

theorem getKey_setKey_self {α : Type} (l : List (String × α)) (k : String)
    (v : α) : getKey (setKey l k v) k = some v := by
  induction l with
  | nil => simp [setKey, getKey]
  | cons p rest ih =>
    obtain ⟨k', v'⟩ := p
    by_cases h : k' = k
    · simp [setKey, getKey, h]
    · simp [setKey, getKey, h, ih]

theorem getKey_setKey_other {α : Type} (l : List (String × α)) (k k' : String)
    (v : α) (h : k' ≠ k) : getKey (setKey l k v) k' = getKey l k' := by
  have h' : ¬(k = k') := fun hh => h hh.symm
  induction l with
  | nil => simp [setKey, getKey, h']
  | cons p rest ih =>
    obtain ⟨k0, v0⟩ := p
    by_cases h0 : k0 = k
    · subst h0
      simp [setKey, getKey, h']
    · simp only [setKey, if_neg h0]
      by_cases h1 : k0 = k'
      · simp [getKey, h1]
      · simp [getKey, h1, ih]

theorem setKey_forall {α : Type} (P : String × α → Prop) (l : List (String × α))
    (k : String) (v : α) (hl : ∀ q ∈ l, P q) (hv : P (k, v)) :
    ∀ q ∈ setKey l k v, P q := by
  induction l with
  | nil => simpa [setKey] using hv
  | cons p rest ih =>
    obtain ⟨k0, v0⟩ := p
    by_cases h0 : k0 = k
    · simp only [setKey, if_pos h0]
      intro q hq
      rcases List.mem_cons.mp hq with hq | hq
      · exact hq ▸ hv
      · exact hl q (List.mem_cons_of_mem _ hq)
    · simp only [setKey, if_neg h0]
      intro q hq
      rcases List.mem_cons.mp hq with hq | hq
      · exact hl q (hq ▸ List.mem_cons_self _ _)
      · exact ih (fun r hr => hl r (List.mem_cons_of_mem _ hr)) q hq

/- ### C1: the BuildingProcessor import cannot resolve -/

/-- Claim C1: tasks.process_export takes its extraction operations from a
`BuildingProcessor` imported from apps/exports/processors.py, but that module
binds no such name, so the `from .processors import BuildingProcessor` at the
top of tasks.py cannot succeed and no invocation of process_export can reach
the per-source extraction step. -/
theorem building_processor_name_unresolved :
    "BuildingProcessor" ∉ processorsModuleNames ∧
    fromImportOk processorsModuleNames tasksImportsFromProcessors = false := by
  decide

/- ### C6: the ExportRun model declares no tiles-artifact field -/

/-- Claim C6 (code bug): ExportRun declares a primary-output reference
(output_file) but no tiles-artifact reference, although tiles.py stores the
produced artifact to precisely that attribute, `export_run.tiles_file`. -/
theorem tiles_field_missing_on_model :
    "output_file" ∈ exportRunFieldNames ∧
    tilesArtifactAttribute ∉ exportRunFieldNames := by
  decide

/- ### C7: validate_source_config accepts unrecognized keys -/

/-- Claim C7 (code bug): a config whose key is not among the source's
recognized options is accepted by validate_source_config, although the
registered schema lists the recognized properties and sets
additionalProperties to false. -/
theorem unrecognized_config_key_accepted :
    validate_source_config "google" (.pyDict ["bogus_key"]) = .ok true ∧
    (getKey SOURCE_CONFIG_SCHEMA "google").map
      (fun sch => sch.properties.contains "bogus_key") = some false ∧
    (getKey SOURCE_CONFIG_SCHEMA "google").map
      (fun sch => sch.additionalProperties) = some false := by
  decide

/- ### C9: the start endpoint is guarded, the re-run endpoint is not -/

/-- Counterexample to claim C9: an export whose only run is processing is
re-run anyway; rerun_export answers 201 and schedules a second execution
instead of refusing. -/
theorem rerun_ignores_inflight_runs :
    export_is_processing ["processing"] = true ∧
    (rerun_export true ["processing"]).1.scheduled = true ∧
    (rerun_export true ["processing"]).1.http_status = 201 := by
  decide

/-- Claim C9 as amended: a start request through StartExportRunView is
refused (HTTP 400, nothing scheduled) whenever the owning export has a run in
pending, queued or processing; the re-run endpoint performs no such check and
unconditionally creates and schedules a new queued run for any existing
export. -/
theorem start_guarded_rerun_unguarded :
    (∀ sts, export_is_processing sts = true →
      start_export_run true sts = { http_status := 400, scheduled := false }) ∧
    (∀ sts, (rerun_export true sts).1 = { http_status := 201, scheduled := true }) := by
  constructor
  · intro sts h
    simp [start_export_run, h]
  · intro sts
    simp [rerun_export]

/-- Witness for start_guarded_rerun_unguarded at a concrete in-flight run
list. -/
theorem start_guarded_rerun_unguarded_witness :
    export_is_processing ["queued"] = true ∧
    start_export_run true ["queued"] = { http_status := 400, scheduled := false } ∧
    (rerun_export true ["queued"]).1 = { http_status := 201, scheduled := true } :=
  ⟨by decide, start_guarded_rerun_unguarded.1 ["queued"] (by decide),
    start_guarded_rerun_unguarded.2 ["queued"]⟩

/- ### C5: the tiles-only archive can never be produced -/

/-- Claim C5 (code bug): with zero converted artifacts the converted-member
pass of _package_files succeeds with no members, but the function then reads
`export_run.tiles_file` (tasks.py line 247, outside its inner try).
ExportRun declares no such field, so the read raises AttributeError and no
archive at all is produced - in particular never a non-empty archive holding
only the vector-tiles member, as the claim states. -/
theorem package_files_tiles_read_raises :
    packageConverted [("osm", [])] = .ok ([] : List String) ∧
    package_files [("osm", [])] "demo" {} wEnvBase =
      .error tilesFileAttributeError := by
  decide

/- ### C2: any uncaught exception after entering processing fails the run -/

/-- Claim C2: whenever the body of process_export raises after the run has
entered processing, the except handler of the task moves the run to failed,
records the captured error text as error_message, and sets the completion
timestamp. -/
theorem uncaught_exception_marks_run_failed (env : Env) (cfg : ExportCfg)
    (run0 runM : RunState) (e : String)
    (hex : env.runExists = true)
    (hbody : bodyAfterProcessing env cfg
        { run0 with status := "processing", started_at := true } =
      .error (runM, e)) :
    (process_export env cfg run0).run.status = "failed" ∧
    (process_export env cfg run0).run.error_message = e ∧
    (process_export env cfg run0).run.completed_at = true ∧
    (process_export env cfg run0).ret =
      { status := "failed", error := some e } := by
  simp [process_export, hex, hbody]

/-- Witness for uncaught_exception_marks_run_failed: the extraction oracle of
wEnvRaise raises "disk full" on the first source. -/
theorem uncaught_exception_marks_run_failed_witness :
    (process_export wEnvRaise wCfg {}).run.status = "failed" ∧
    (process_export wEnvRaise wCfg {}).run.error_message = "disk full" ∧
    (process_export wEnvRaise wCfg {}).run.completed_at = true ∧
    (process_export wEnvRaise wCfg {}).ret =
      { status := "failed", error := some "disk full" } :=
  uncaught_exception_marks_run_failed wEnvRaise wCfg {}
    { ({} : RunState) with status := "processing", started_at := true }
    "disk full" rfl (by decide)

/- ### Lemmas on the tiles stage -/

theorem generate_pmtiles_from_geojson_err (env : Env) (p : String)
    (run run' : RunState)
    (h : generate_pmtiles_from_geojson env p run = .ok run') : False := by
  simp only [generate_pmtiles_from_geojson] at h
  split at h
  · exact absurd h (by simp)
  · split at h
    · exact absurd h (by simp)
    · exact absurd h (by simp)

theorem generate_pmtiles_from_multiple_geojson_err (env : Env)
    (ps : List String) (run run' : RunState)
    (h : generate_pmtiles_from_multiple_geojson env ps run = .ok run') :
    False := by
  simp only [generate_pmtiles_from_multiple_geojson] at h
  split at h
  · exact absurd h (by simp)
  · split at h
    · exact absurd h (by simp)
    · exact absurd h (by simp)

theorem generate_pmtiles_from_gdf_err (env : Env) (g : Gdf)
    (run run' : RunState)
    (h : generate_pmtiles_from_gdf env g run = .ok run') : False := by
  simp only [generate_pmtiles_from_gdf] at h
  split at h
  · exact absurd h (by simp)
  · split at h
    · exact absurd h (by simp)
    · split at h
      · exact absurd h (by simp)
      · exact absurd h (by simp)

theorem tilesAttempt_ok (env : Env) (cfg : ExportCfg) (run : RunState)
    (sr : List (String × SourcePayload)) (run' : RunState)
    (h : tilesAttempt env cfg run sr = .ok run') : run' = run := by
  unfold tilesAttempt at h
  split at h
  · exact absurd h (by simp)
  · split at h
    · exact (generate_pmtiles_from_geojson_err _ _ _ _ h).elim
    · split at h
      · exact (generate_pmtiles_from_multiple_geojson_err _ _ _ _ h).elim
      · split at h
        · exact (Except.ok.inj h).symm
        · exact (generate_pmtiles_from_gdf_err _ _ _ _ h).elim

theorem tilesStage_fst (env : Env) (cfg : ExportCfg) (run : RunState)
    (sr : List (String × SourcePayload)) (fr : Results) :
    (tilesStage env cfg run sr fr).1 = run := by
  cases h : tilesAttempt env cfg run sr with
  | ok run' =>
    have h' := tilesAttempt_ok env cfg run sr run' h
    simp [tilesStage, h, h']
  | error e => simp [tilesStage, h]

theorem tilesStage_results_bc (env : Env) (cfg : ExportCfg) (run : RunState)
    (sr : List (String × SourcePayload)) (fr : Results) :
    (tilesStage env cfg run sr fr).2.building_count = fr.building_count := by
  cases h : tilesAttempt env cfg run sr with
  | ok run' => simp [tilesStage, h]
  | error e => simp [tilesStage, h]

/- ### C10: the top-level building_count key is never written -/

theorem finalizeStage_bc_ok (env : Env) (cfg : ExportCfg) (acc : LoopAcc)
    (fr : Results) (run : RunState) (out : ProcOutcome)
    (hfr : fr.building_count = none)
    (hb : finalizeStage env cfg acc fr run = .ok out) :
    out.run.results.building_count = none := by
  simp only [finalizeStage] at hb
  by_cases hav : env.tippecanoeAvailable = true ∧ acc.total_building_count > 0
  · simp only [if_pos hav] at hb
    cases hps : packageStage env cfg
        (tilesStage env cfg run acc.source_results fr).1 acc.all_files with
    | error e => rw [hps] at hb; exact absurd hb (by simp)
    | ok run' =>
      rw [hps] at hb
      have := (Except.ok.inj hb).symm
      subst this
      simpa [tilesStage_results_bc] using hfr
  · simp only [if_neg hav] at hb
    cases hps : packageStage env cfg run acc.all_files with
    | error e => rw [hps] at hb; exact absurd hb (by simp)
    | ok run' =>
      rw [hps] at hb
      have := (Except.ok.inj hb).symm
      subst this
      simpa using hfr

theorem finalizeStage_bc_err (env : Env) (cfg : ExportCfg) (acc : LoopAcc)
    (fr : Results) (run : RunState) (rM : RunState) (e : String)
    (h : run.results.building_count = none)
    (hb : finalizeStage env cfg acc fr run = .error (rM, e)) :
    rM.results.building_count = none := by
  simp only [finalizeStage] at hb
  by_cases hav : env.tippecanoeAvailable = true ∧ acc.total_building_count > 0
  · simp only [if_pos hav] at hb
    cases hps : packageStage env cfg
        (tilesStage env cfg run acc.source_results fr).1 acc.all_files with
    | error e' =>
      rw [hps] at hb
      have h1 := Except.error.inj hb
      have h2 : rM = (tilesStage env cfg run acc.source_results fr).1 := by
        exact (congrArg Prod.fst h1).symm
      rw [h2, tilesStage_fst env cfg run acc.source_results fr]
      exact h
    | ok run' => rw [hps] at hb; exact absurd hb (by simp)
  · simp only [if_neg hav] at hb
    cases hps : packageStage env cfg run acc.all_files with
    | error e' =>
      rw [hps] at hb
      have h1 := Except.error.inj hb
      have h2 : rM = run := (congrArg Prod.fst h1).symm
      rw [h2]; exact h
    | ok run' => rw [hps] at hb; exact absurd hb (by simp)

theorem frOf_bc (cfg : ExportCfg) (acc : LoopAcc) (popOpt : Option PopData) :
    (frOf cfg acc popOpt).building_count = none := by
  cases popOpt <;> rfl

theorem frOf_tiles_generated (cfg : ExportCfg) (acc : LoopAcc)
    (popOpt : Option PopData) : (frOf cfg acc popOpt).tiles_generated = none := by
  cases popOpt <;> rfl

theorem body_bc_ok (env : Env) (cfg : ExportCfg) (run : RunState)
    (out : ProcOutcome) (_h : run.results.building_count = none)
    (hb : bodyAfterProcessing env cfg run = .ok out) :
    out.run.results.building_count = none := by
  unfold bodyAfterProcessing at hb
  split at hb
  · exact absurd hb (by simp)
  · split at hb
    · have := (Except.ok.inj hb).symm
      subst this
      rfl
    · split at hb
      · exact absurd hb (by simp)
      · exact finalizeStage_bc_ok env cfg _ _ run out (frOf_bc _ _ _) hb

theorem body_bc_err (env : Env) (cfg : ExportCfg) (run : RunState)
    (rM : RunState) (e : String) (h : run.results.building_count = none)
    (hb : bodyAfterProcessing env cfg run = .error (rM, e)) :
    rM.results.building_count = none := by
  unfold bodyAfterProcessing at hb
  split at hb
  · have h1 := Except.error.inj hb
    have h2 : rM = run := (congrArg Prod.fst h1).symm
    rw [h2]; exact h
  · split at hb
    · exact absurd hb (by simp)
    · split at hb
      · have h1 := Except.error.inj hb
        have h2 : rM = run := (congrArg Prod.fst h1).symm
        rw [h2]; exact h
      · exact finalizeStage_bc_err env cfg _ _ run rM e h hb

/- ### Characterization of the source loop under non-raising oracles -/

theorem formatLoop_eq_noExn (env : Env) (fi : Gdf → String → String → FileInfo)
    (hfi : ∀ g fm b, env.save_gdf_to_format g fm b = .ok (fi g fm b))
    (g : Gdf) (source : String) :
    ∀ (fmts : List String) (acc : List (String × FileInfo)) (gp : Option String),
      formatLoop env g source fmts acc gp =
        .ok (formatLoopNoExn fi g source fmts acc gp) := by
  intro fmts
  induction fmts with
  | nil => intro acc gp; rfl
  | cons fmt rest ih =>
    intro acc gp
    by_cases ht : fmt = "tiles"
    · simp only [formatLoop, formatLoopNoExn, if_pos ht]
      exact ih acc gp
    · simp only [formatLoop, formatLoopNoExn, if_neg ht, hfi]
      by_cases he : strTruthy (fi g fmt (source ++ "_buildings")).error
      · simp only [if_pos he]
        exact ih acc gp
      · simp only [if_neg he]
        exact ih _ _

theorem sourceLoop_eq_noExn (env : Env) (f : String → ExtractResult)
    (fi : Gdf → String → String → FileInfo)
    (hf : ∀ s, env.extract s = .ok (f s))
    (hfi : ∀ g fm b, env.save_gdf_to_format g fm b = .ok (fi g fm b))
    (fmts : List String) :
    ∀ (sources : List String) (acc : LoopAcc),
      sourceLoop env fmts sources acc =
        .ok (sourceLoopNoExn f fi fmts sources acc) := by
  intro sources
  induction sources with
  | nil => intro acc; rfl
  | cons s rest ih =>
    intro acc
    simp only [sourceLoop, sourceLoopNoExn, sourceStepNoExn, hf]
    by_cases he : strTruthy (f s).error
    · simp only [if_pos he]
      exact ih _
    · simp only [if_neg he]
      cases hg : (f s).gdf with
      | none => simp only []; exact ih _
      | some g =>
        by_cases hge : g.isEmpty
        · simp only [if_pos hge]; exact ih _
        · simp only [if_neg hge, formatLoop_eq_noExn env fi hfi g s fmts]
          rcases hfl : formatLoopNoExn fi g s fmts [] none with ⟨sf, gp⟩
          simp only [hfl]
          exact ih _

theorem sourceStepNoExn_total (f : String → ExtractResult)
    (fi : Gdf → String → String → FileInfo) (fmts : List String)
    (acc : LoopAcc) (s : String) :
    (sourceStepNoExn f fi fmts acc s).total_building_count =
      acc.total_building_count + contribution (f s) := by
  unfold sourceStepNoExn contribution
  by_cases he : strTruthy (f s).error
  · simp [he]
  · simp only [if_neg he, he]
    cases hg : (f s).gdf with
    | none => simp [he]
    | some g =>
      by_cases hge : g.isEmpty
      · simp [hge, he]
      · rcases hfl : formatLoopNoExn fi g s fmts [] none with ⟨sf, gp⟩
        by_cases hgp : strTruthy gp
        · simp [hge, hfl, hgp, he]
        · simp [hge, hfl, hgp, he]

theorem sourceLoopNoExn_total (f : String → ExtractResult)
    (fi : Gdf → String → String → FileInfo) (fmts : List String) :
    ∀ (sources : List String) (acc : LoopAcc),
      (sourceLoopNoExn f fi fmts sources acc).total_building_count =
        acc.total_building_count +
          (sources.map (fun s => contribution (f s))).sum := by
  intro sources
  induction sources with
  | nil => intro acc; simp [sourceLoopNoExn]
  | cons s rest ih =>
    intro acc
    simp [sourceLoopNoExn, ih, sourceStepNoExn_total, Nat.add_assoc]

theorem sourceStepNoExn_lookup_self (f : String → ExtractResult)
    (fi : Gdf → String → String → FileInfo) (fmts : List String)
    (acc : LoopAcc) (s : String) :
    getKey (sourceStepNoExn f fi fmts acc s).source_results s =
      some (payloadNoExn f fi fmts s) := by
  unfold sourceStepNoExn payloadNoExn
  by_cases he : strTruthy (f s).error
  · simp [he, getKey_setKey_self]
  · simp only [if_neg he]
    cases hg : (f s).gdf with
    | none => simp [he, getKey_setKey_self]
    | some g =>
      by_cases hge : g.isEmpty
      · simp [he, hge, getKey_setKey_self]
      · rcases hfl : formatLoopNoExn fi g s fmts [] none with ⟨sf, gp⟩
        by_cases hgp : strTruthy gp
        · simp [he, hge, hfl, hgp, getKey_setKey_self]
        · simp [he, hge, hfl, hgp, getKey_setKey_self]

theorem sourceStepNoExn_lookup_other (f : String → ExtractResult)
    (fi : Gdf → String → String → FileInfo) (fmts : List String)
    (acc : LoopAcc) (s k : String) (hk : k ≠ s) :
    getKey (sourceStepNoExn f fi fmts acc s).source_results k =
      getKey acc.source_results k := by
  unfold sourceStepNoExn
  by_cases he : strTruthy (f s).error
  · simp [he, getKey_setKey_other _ _ _ _ hk]
  · simp only [if_neg he]
    cases hg : (f s).gdf with
    | none => simp [getKey_setKey_other _ _ _ _ hk]
    | some g =>
      by_cases hge : g.isEmpty
      · simp [hge, getKey_setKey_other _ _ _ _ hk]
      · rcases hfl : formatLoopNoExn fi g s fmts [] none with ⟨sf, gp⟩
        by_cases hgp : strTruthy gp
        · simp [hge, hfl, hgp, getKey_setKey_other _ _ _ _ hk]
        · simp [hge, hfl, hgp, getKey_setKey_other _ _ _ _ hk]

theorem sourceLoopNoExn_lookup_notmem (f : String → ExtractResult)
    (fi : Gdf → String → String → FileInfo) (fmts : List String) :
    ∀ (sources : List String) (acc : LoopAcc) (k : String), k ∉ sources →
      getKey (sourceLoopNoExn f fi fmts sources acc).source_results k =
        getKey acc.source_results k := by
  intro sources
  induction sources with
  | nil => intro acc k _; rfl
  | cons s rest ih =>
    intro acc k hk
    have h1 : k ≠ s := fun hh => hk (hh ▸ List.mem_cons_self _ _)
    have h2 : k ∉ rest := fun hh => hk (List.mem_cons_of_mem _ hh)
    simp [sourceLoopNoExn, ih _ _ h2,
      sourceStepNoExn_lookup_other f fi fmts acc s k h1]

theorem sourceLoopNoExn_lookup_mem (f : String → ExtractResult)
    (fi : Gdf → String → String → FileInfo) (fmts : List String) :
    ∀ (sources : List String) (acc : LoopAcc) (s : String), s ∈ sources →
      getKey (sourceLoopNoExn f fi fmts sources acc).source_results s =
        some (payloadNoExn f fi fmts s) := by
  intro sources
  induction sources with
  | nil => intro acc s h; exact absurd h (List.not_mem_nil _)
  | cons s0 rest ih =>
    intro acc s h
    by_cases hr : s ∈ rest
    · exact ih _ s hr
    · have hs : s = s0 := by
        rcases List.mem_cons.mp h with h' | h'
        · exact h'
        · exact absurd h' hr
      subst hs
      simp only [sourceLoopNoExn]
      rw [sourceLoopNoExn_lookup_notmem f fi fmts rest _ s hr]
      exact sourceStepNoExn_lookup_self f fi fmts acc s

theorem sourceStepNoExn_files_self (f : String → ExtractResult)
    (fi : Gdf → String → String → FileInfo) (fmts : List String)
    (acc : LoopAcc) (s : String) (g : Gdf)
    (he : strTruthy (f s).error = false) (hg : (f s).gdf = some g)
    (hge : g.isEmpty = false) :
    getKey (sourceStepNoExn f fi fmts acc s).all_files s =
      some (formatLoopNoExn fi g s fmts [] none).1 := by
  unfold sourceStepNoExn
  rcases hfl : formatLoopNoExn fi g s fmts [] none with ⟨sf, gp⟩
  by_cases hgp : strTruthy gp <;>
    simp [he, hg, hge, hfl, hgp, getKey_setKey_self]

theorem sourceStepNoExn_files_other (f : String → ExtractResult)
    (fi : Gdf → String → String → FileInfo) (fmts : List String)
    (acc : LoopAcc) (s k : String) (hk : k ≠ s) :
    getKey (sourceStepNoExn f fi fmts acc s).all_files k =
      getKey acc.all_files k := by
  unfold sourceStepNoExn
  by_cases he : strTruthy (f s).error
  · simp [he]
  · simp only [if_neg he]
    cases hg : (f s).gdf with
    | none => simp
    | some g =>
      by_cases hge : g.isEmpty
      · simp [hge]
      · rcases hfl : formatLoopNoExn fi g s fmts [] none with ⟨sf, gp⟩
        by_cases hgp : strTruthy gp <;>
          simp [hge, hfl, hgp, getKey_setKey_other _ _ _ _ hk]

theorem sourceLoopNoExn_files_notmem (f : String → ExtractResult)
    (fi : Gdf → String → String → FileInfo) (fmts : List String) :
    ∀ (sources : List String) (acc : LoopAcc) (k : String), k ∉ sources →
      getKey (sourceLoopNoExn f fi fmts sources acc).all_files k =
        getKey acc.all_files k := by
  intro sources
  induction sources with
  | nil => intro acc k _; rfl
  | cons s rest ih =>
    intro acc k hk
    have h1 : k ≠ s := fun hh => hk (hh ▸ List.mem_cons_self _ _)
    have h2 : k ∉ rest := fun hh => hk (List.mem_cons_of_mem _ hh)
    simp [sourceLoopNoExn, ih _ _ h2,
      sourceStepNoExn_files_other f fi fmts acc s k h1]

theorem sourceLoopNoExn_files_mem (f : String → ExtractResult)
    (fi : Gdf → String → String → FileInfo) (fmts : List String) :
    ∀ (sources : List String) (acc : LoopAcc) (s : String) (g : Gdf),
      s ∈ sources →
      strTruthy (f s).error = false → (f s).gdf = some g →
      g.isEmpty = false →
      getKey (sourceLoopNoExn f fi fmts sources acc).all_files s =
        some (formatLoopNoExn fi g s fmts [] none).1 := by
  intro sources
  induction sources with
  | nil => intro acc s g h; exact absurd h (List.not_mem_nil _)
  | cons s0 rest ih =>
    intro acc s g h he hg hge
    by_cases hr : s ∈ rest
    · exact ih _ s g hr he hg hge
    · have hs : s = s0 := by
        rcases List.mem_cons.mp h with h' | h'
        · exact h'
        · exact absurd h' hr
      subst hs
      simp only [sourceLoopNoExn]
      rw [sourceLoopNoExn_files_notmem f fi fmts rest _ s hr]
      exact sourceStepNoExn_files_self f fi fmts acc s g he hg hge

/-- Claim C10: the pipeline records building counts only per source and never
writes a top-level results key named building_count, so the
ExportRun.building_count property, and with it the building_count field of
the run-statistics endpoint, always evaluates to 0. -/
theorem building_count_always_zero (env : Env) (cfg : ExportCfg)
    (run0 : RunState) (h : run0.results.building_count = none) :
    (process_export env cfg run0).run.results.building_count = none ∧
    (process_export env cfg run0).run.building_count = 0 ∧
    statsBuildingCount (process_export env cfg run0).run = 0 := by
  have key : (process_export env cfg run0).run.results.building_count = none := by
    unfold process_export
    by_cases hex : env.runExists
    · cases hbody : bodyAfterProcessing env cfg
          { run0 with status := "processing", started_at := true } with
      | ok out =>
        have hb := body_bc_ok env cfg _ out (by simpa using h) hbody
        simpa [hex, hbody] using hb
      | error pr =>
        obtain ⟨runM, e⟩ := pr
        have hb := body_bc_err env cfg _ runM e (by simpa using h) hbody
        simpa [hex, hbody] using hb
    · simpa [hex] using h
  exact ⟨key, by simp [RunState.building_count, key],
    by simp [statsBuildingCount, RunState.building_count, key]⟩

/-- Witness for building_count_always_zero at a concrete environment and a
fresh run. -/
theorem building_count_always_zero_witness :
    (process_export wEnvLoop wCfg {}).run.results.building_count = none ∧
    (process_export wEnvLoop wCfg {}).run.building_count = 0 ∧
    statsBuildingCount (process_export wEnvLoop wCfg {}).run = 0 :=
  building_count_always_zero wEnvLoop wCfg {} rfl

/- ### C3: a per-source extraction error is isolated -/

/-- Claim C3: in the per-source loop of process_export, a source whose
extraction returns an error dict has that dict recorded under its key in
source_results and contributes zero to the aggregate building count, while
every other source is still extracted, converted and counted into the
aggregate. -/
theorem source_error_isolated (env : Env) (f : String → ExtractResult)
    (fi : Gdf → String → String → FileInfo) (fmts : List String)
    (sources : List String) (sA : String)
    (hf : ∀ s, env.extract s = .ok (f s))
    (hfi : ∀ g fm b, env.save_gdf_to_format g fm b = .ok (fi g fm b))
    (hmem : sA ∈ sources)
    (herr : strTruthy (f sA).error = true) :
    ∃ acc, sourceLoop env fmts sources {} = .ok acc ∧
      getKey acc.source_results sA =
        some { error := (f sA).error, building_count := (f sA).building_count,
               gdf := (f sA).gdf } ∧
      contribution (f sA) = 0 ∧
      acc.total_building_count =
        (sources.map (fun s => contribution (f s))).sum ∧
      (∀ sB ∈ sources,
        getKey acc.source_results sB = some (payloadNoExn f fi fmts sB)) ∧
      (∀ sB ∈ sources, strTruthy (f sB).error = false →
        ∀ g, (f sB).gdf = some g → g.isEmpty = false →
          getKey acc.all_files sB =
            some (formatLoopNoExn fi g sB fmts [] none).1) := by
  refine ⟨sourceLoopNoExn f fi fmts sources {},
    sourceLoop_eq_noExn env f fi hf hfi fmts sources {}, ?_, ?_, ?_, ?_, ?_⟩
  · rw [sourceLoopNoExn_lookup_mem f fi fmts sources {} sA hmem]
    simp [payloadNoExn, herr]
  · simp [contribution, herr]
  · rw [sourceLoopNoExn_total]
    simp
  · intro sB hB
    exact sourceLoopNoExn_lookup_mem f fi fmts sources {} sB hB
  · intro sB hB he g hg hge
    exact sourceLoopNoExn_files_mem f fi fmts sources {} sB g hB he hg hge

/-- Witness for source_error_isolated: google errors, osm returns five
buildings with data. -/
theorem source_error_isolated_witness :
    ∃ acc, sourceLoop wEnvLoop ["geojson"] ["google", "osm"] {} = .ok acc ∧
      getKey acc.source_results "google" =
        some { error := (wExtract "google").error,
               building_count := (wExtract "google").building_count,
               gdf := (wExtract "google").gdf } ∧
      contribution (wExtract "google") = 0 ∧
      acc.total_building_count =
        (["google", "osm"].map (fun s => contribution (wExtract s))).sum ∧
      (∀ sB ∈ ["google", "osm"],
        getKey acc.source_results sB =
          some (payloadNoExn wExtract wSave ["geojson"] sB)) ∧
      (∀ sB ∈ ["google", "osm"], strTruthy (wExtract sB).error = false →
        ∀ g, (wExtract sB).gdf = some g → g.isEmpty = false →
          getKey acc.all_files sB =
            some (formatLoopNoExn wSave g sB ["geojson"] [] none).1) :=
  source_error_isolated wEnvLoop wExtract wSave ["geojson"] ["google", "osm"]
    "google" (fun _ => rfl) (fun _ _ _ => rfl) (by decide) (by decide)

/- ### C4: zero buildings across all sources completes the run -/

/-- Claim C4: when every configured source yields zero buildings the run
finalizes as completed (not failed) with the no-buildings summary in its
results payload and no output archive attached. -/
theorem zero_buildings_completes (env : Env) (cfg : ExportCfg)
    (run0 : RunState) (f : String → ExtractResult)
    (fi : Gdf → String → String → FileInfo)
    (hex : env.runExists = true)
    (hf : ∀ s, env.extract s = .ok (f s))
    (hfi : ∀ g fm b, env.save_gdf_to_format g fm b = .ok (fi g fm b))
    (hzero : ∀ s ∈ cfg.sources, (f s).building_count.getD 0 = 0)
    (hout : run0.output_file = none) :
    (process_export env cfg run0).run.status = "completed" ∧
    (process_export env cfg run0).run.completed_at = true ∧
    (process_export env cfg run0).run.results.message =
      some "No buildings found from any source" ∧
    (process_export env cfg run0).run.results.status = some "completed" ∧
    (process_export env cfg run0).run.output_file = none ∧
    (process_export env cfg run0).ret = { status := "completed" } := by
  have hsl := sourceLoop_eq_noExn env f fi hf hfi cfg.output_formats
    cfg.sources {}
  have hall : ∀ x ∈ (cfg.sources.map fun s => contribution (f s)), x = 0 := by
    intro x hx
    obtain ⟨s, hs, rfl⟩ := List.mem_map.mp hx
    by_cases he : strTruthy (f s).error
    · simp [contribution, he]
    · simp [contribution, he, hzero s hs]
  have htot : (sourceLoopNoExn f fi cfg.output_formats
      cfg.sources {}).total_building_count = 0 := by
    rw [sourceLoopNoExn_total]
    simp [List.sum_eq_zero hall]
  have hbody : bodyAfterProcessing env cfg
      { run0 with status := "processing", started_at := true } =
    .ok { run := { run0 with
            status := "completed", started_at := true,
            results := { status := some "completed",
                         message := some "No buildings found from any source",
                         sources := some (sourceLoopNoExn f fi
                           cfg.output_formats cfg.sources {}).source_results },
            completed_at := true },
          ret := { status := "completed" } } := by
    unfold bodyAfterProcessing
    rw [hsl]
    simp [htot]
  rw [hout] at hbody
  simp [process_export, hex, hout, hbody]

/-- Witness for zero_buildings_completes: both sources return zero
buildings. -/
theorem zero_buildings_completes_witness :
    (process_export wEnvZero wCfg {}).run.status = "completed" ∧
    (process_export wEnvZero wCfg {}).run.completed_at = true ∧
    (process_export wEnvZero wCfg {}).run.results.message =
      some "No buildings found from any source" ∧
    (process_export wEnvZero wCfg {}).run.results.status = some "completed" ∧
    (process_export wEnvZero wCfg {}).run.output_file = none ∧
    (process_export wEnvZero wCfg {}).ret = { status := "completed" } :=
  zero_buildings_completes wEnvZero wCfg {} wExtractZero (fun _ _ _ => {})
    rfl (fun _ => rfl) (fun _ _ _ => rfl) (by decide) rfl

/- ### C8: a tiling failure does not leave the run completed -/

/-- Claim C8 (code bug): at a run where tippecanoe exits with code 1, the
tiles block does absorb the failure into a tiles_error annotation on the
local final-results dict, but packaging then reads the undeclared
export_run.tiles_file and raises, so the run ends failed with the
AttributeError as its error_message and the tiles_error annotation never
persisted - the run does not reach completed as the claim states. -/
theorem tiling_failure_fails_run :
    (tilesStage wEnvTipFail wCfg
        { ({} : RunState) with status := "processing", started_at := true }
        (sourceLoopNoExn wExtract wSave ["geojson"]
          ["google", "osm"] {}).source_results
        (frOf wCfg
          (sourceLoopNoExn wExtract wSave ["geojson"] ["google", "osm"] {})
          none)).2.tiles_error = some "Tippecanoe failed: boom" ∧
    (process_export wEnvTipFail wCfg {}).run.status = "failed" ∧
    (process_export wEnvTipFail wCfg {}).run.error_message =
      tilesFileAttributeError ∧
    (process_export wEnvTipFail wCfg {}).run.completed_at = true ∧
    (process_export wEnvTipFail wCfg {}).run.results.tiles_error = none := by
  decide

end ObeApp
